import Mathlib

/-!
# Verification of terminal-ai's response parsing and safety classification

Shallow embedding of `src/terminal_ai/agents/translate_command_agent.py`
and the post-transport part of
`src/terminal_ai/io/language_model_client.py`, together with theorems
settling the specification claims about them.

Modelling conventions:
* Python exceptions are an explicit error type (`PyError`) and fallible
  functions return `Except PyError _`.
* Decoded JSON values are the inductive `JValue`; JSON numerals are
  modelled as integers (no claim touches fractional numbers).
* Character classes (`\w`, `\s`) and `str.lower`/`str.strip` follow the
  ASCII fragment of Python semantics; every input appearing in a claim
  or test is ASCII.
-/

namespace TerminalAI

/-- Decoded JSON value, the result of `json.loads`. -/
inductive JValue where
  | null : JValue
  | bool : Bool → JValue
  | num : Int → JValue
  | str : String → JValue
  | arr : List JValue → JValue
  | obj : List (String × JValue) → JValue

/-- Python exceptions that the embedded code can raise.
`commandParsingError` is the repository's `CommandParsingError`
(a `RuntimeError` subclass); the rest are builtin exception kinds. -/
inductive PyError where
  | commandParsingError : String → PyError
  | valueError : String → PyError
  | nameError : String → PyError
  | attributeError : String → PyError
  | runtimeError : String → PyError
  | typeError : String → PyError
deriving DecidableEq, Repr

/-- Python regex `\w` (word character), ASCII fragment. -/
def isWordChar (c : Char) : Bool :=
  c.isAlpha || c.isDigit || c == '_'

/-- Python regex `\s` / `str.strip` whitespace, ASCII fragment. -/
def isSpaceChar (c : Char) : Bool :=
  c == ' ' || c == '\t' || c == '\n' || c == '\r' || c == '\x0b' || c == '\x0c'

/-- Consume the literal `lit` at the head of `l`, returning the rest. -/
def eatLit : List Char → List Char → Option (List Char)
  | [], l => some l
  | _ :: _, [] => none
  | p :: ps, c :: cs => if c == p then eatLit ps cs else none

/-- Drop a maximal run of whitespace characters (regex `\s*`). -/
def dropSpaces : List Char → List Char
  | [] => []
  | c :: cs => if isSpaceChar c then dropSpaces cs else c :: cs

/-- Regex `\s+`: require at least one whitespace character, consume the
maximal run (equivalent to backtracking here because every following
literal in the patterns starts with a non-space character). -/
def spacesPlus : List Char → Option (List Char)
  | [] => none
  | c :: cs => if isSpaceChar c then some (dropSpaces cs) else none

/-- Regex `\b` at the position between a previous character whose
word-ness is `prevIsWord` and the remaining input `l`. -/
def atWordBoundary (prevIsWord : Bool) : List Char → Bool
  | [] => prevIsWord
  | c :: _ => prevIsWord != isWordChar c

/-- Regex search: does `f` match at some suffix of `l`?  This is the
existence semantics of `re.search` (only truthiness of the match object
is ever used in the source). -/
def searchSuffixes (f : List Char → Bool) : List Char → Bool
  | [] => f []
  | c :: cs => f (c :: cs) || searchSuffixes f cs

/-- Character class `[f|v|i]` of the first destructive pattern.  Note the
source writes alternation bars inside a character class, so the literal
bar is itself a member. -/
def p1Class (c : Char) : Bool :=
  c == 'f' || c == '|' || c == 'v' || c == 'i'

/-- Match `[f|v|i]*\b` against `l`, where the character immediately
before `l` has word-ness `prevIsWord`.  Tries every split: zero or more
class characters followed by a word boundary. -/
def p1Tail (prevIsWord : Bool) : List Char → Bool
  | [] => prevIsWord
  | c :: cs => (prevIsWord != isWordChar c) || (p1Class c && p1Tail (isWordChar c) cs)

/-- Pattern `rm\s+-r[f|v|i]*\b` matched at the start of `l`. -/
def matchP1At (l : List Char) : Bool :=
  match eatLit ['r', 'm'] l with
  | none => false
  | some r1 =>
    match spacesPlus r1 with
    | none => false
    | some r2 =>
      match eatLit ['-', 'r'] r2 with
      | none => false
      | some r3 => p1Tail true r3

/-- Match a literal word (all of whose characters are word characters)
followed by `\b`, at the start of `l`. -/
def matchWordB (w : List Char) (l : List Char) : Bool :=
  match eatLit w l with
  | none => false
  | some r => atWordBoundary true r

/-- Pattern `mkfs\b` matched at the start of `l`. -/
def matchP2At (l : List Char) : Bool :=
  matchWordB ['m', 'k', 'f', 's'] l

/-- Pattern `dd\s+if=` matched at the start of `l` (the `re.IGNORECASE`
flag is immaterial because the scanned text is already lowercased). -/
def matchP3At (l : List Char) : Bool :=
  match eatLit ['d', 'd'] l with
  | none => false
  | some r1 =>
    match spacesPlus r1 with
    | none => false
    | some r2 => (eatLit ['i', 'f', '='] r2).isSome

/-- Pattern `shutdown\b|reboot\b|poweroff\b` matched at the start of `l`.
There is no left `\b` in the source pattern: only the right edge of each
word is anchored. -/
def matchP4At (l : List Char) : Bool :=
  matchWordB ['s', 'h', 'u', 't', 'd', 'o', 'w', 'n'] l
    || matchWordB ['r', 'e', 'b', 'o', 'o', 't'] l
    || matchWordB ['p', 'o', 'w', 'e', 'r', 'o', 'f', 'f'] l

/-- Pattern `\|\s*(bash|sh|zsh|python|curl)\b` matched at the start of
`l`. -/
def matchP5At (l : List Char) : Bool :=
  match l with
  | '|' :: rest =>
    let r := dropSpaces rest
    matchWordB ['b', 'a', 's', 'h'] r
      || matchWordB ['s', 'h'] r
      || matchWordB ['z', 's', 'h'] r
      || matchWordB ['p', 'y', 't', 'h', 'o', 'n'] r
      || matchWordB ['c', 'u', 'r', 'l'] r
  | _ => false

/-- Pattern `sudo\s+` matched at the start of `l`. -/
def matchP6At (l : List Char) : Bool :=
  match eatLit ['s', 'u', 'd', 'o'] l with
  | none => false
  | some r => (spacesPlus r).isSome

/-- Pattern `chmod\s+777` matched at the start of `l`. -/
def matchP7At (l : List Char) : Bool :=
  match eatLit ['c', 'h', 'm', 'o', 'd'] l with
  | none => false
  | some r1 =>
    match spacesPlus r1 with
    | none => false
    | some r2 => (eatLit ['7', '7', '7'] r2).isSome

/-- Embeds `any(pattern.search(normalized_cmd) for pattern in
_DESTRUCTIVE_PATTERNS)`: some pattern of the module-level
`_DESTRUCTIVE_PATTERNS` tuple matches somewhere in `l`. -/
def matches_any_destructive (l : List Char) : Bool :=
  searchSuffixes matchP1At l
    || searchSuffixes matchP2At l
    || searchSuffixes matchP3At l
    || searchSuffixes matchP4At l
    || searchSuffixes matchP5At l
    || searchSuffixes matchP6At l
    || searchSuffixes matchP7At l

/-- Python `str.strip` on a character list (ASCII whitespace). -/
def stripChars (l : List Char) : List Char :=
  ((l.dropWhile isSpaceChar).reverse.dropWhile isSpaceChar).reverse

/-- Embeds `suggestion.command.lower().strip()` from
`_enforce_confirmation` (ASCII lowering). -/
def normalizeCmd (s : String) : List Char :=
  stripChars (s.data.map Char.toLower)

/-- Embeds the `CommandRequest` dataclass (the `cwd : Path | None` field
is modelled by its string rendering). -/
structure CommandRequest where
  instruction : String
  cwd : Option String := none
  shell : String := "/bin/bash"
  temperature : Float := 0.0
  allow_destructive : Bool := false

/-- Embeds the `CommandSuggestion` dataclass. -/
structure CommandSuggestion where
  command : String
  explanation : String
  requires_confirmation : Bool
  follow_up : String
deriving DecidableEq, Repr

/-- Embeds `CommandSuggestion.with_confirmation`: a fresh value with the
same `command`, `explanation` and `follow_up` and the given flag. -/
def CommandSuggestion.with_confirmation (s : CommandSuggestion) (required : Bool) :
    CommandSuggestion :=
  CommandSuggestion.mk s.command s.explanation required s.follow_up

/-- Embeds `TranslateCommandAgent._enforce_confirmation`: lowercase and
strip the command, scan it against every destructive pattern, and force
the confirmation flag when any pattern matches. -/
def enforce_confirmation (suggestion : CommandSuggestion) : CommandSuggestion :=
  if matches_any_destructive (normalizeCmd suggestion.command) then
    suggestion.with_confirmation true
  else
    suggestion

mutual

/-- Python `repr` of a decoded JSON value (string escaping inside the
quotes is not rendered, which no claim observes). -/
def pyRepr : JValue → String
  | JValue.null => "None"
  | JValue.bool true => "True"
  | JValue.bool false => "False"
  | JValue.num n => toString n
  | JValue.str s => "\x27" ++ s ++ "\x27"
  | JValue.arr xs => "[" ++ pyReprSeq xs ++ "]"
  | JValue.obj kvs => "\x7b" ++ pyReprItems kvs ++ "\x7d"

/-- Comma-separated `repr` of the elements of a decoded JSON array. -/
def pyReprSeq : List JValue → String
  | [] => ""
  | [v] => pyRepr v
  | v :: rest => pyRepr v ++ ", " ++ pyReprSeq rest

/-- Comma-separated `repr` of the items of a decoded JSON object. -/
def pyReprItems : List (String × JValue) → String
  | [] => ""
  | [(k, v)] => "\x27" ++ k ++ "\x27: " ++ pyRepr v
  | (k, v) :: rest => "\x27" ++ k ++ "\x27: " ++ pyRepr v ++ ", " ++ pyReprItems rest

end

/-- Python `str()` of a decoded JSON value, as in
`str(payload.get("command", ""))`. -/
def pyStr : JValue → String
  | JValue.str s => s
  | JValue.null => "None"
  | JValue.bool true => "True"
  | JValue.bool false => "False"
  | JValue.num n => toString n
  | JValue.arr xs => pyRepr (JValue.arr xs)
  | JValue.obj kvs => pyRepr (JValue.obj kvs)

/-- Python `bool()` (truthiness) of a decoded JSON value, as in
`bool(payload.get("requires_confirmation", False))`. -/
def pyBool : JValue → Bool
  | JValue.null => false
  | JValue.bool b => b
  | JValue.num n => n != 0
  | JValue.str s => s != ""
  | JValue.arr xs => !xs.isEmpty
  | JValue.obj kvs => !kvs.isEmpty

/-- Python `dict.get` on the key/value list of a decoded JSON object
(keys of objects produced by `json.loads` are unique: later duplicates
overwrite earlier ones, a corner no claim exercises). -/
def jGet : List (String × JValue) → String → Option JValue
  | [], _ => none
  | (k, v) :: rest, key => if k == key then some v else jGet rest key

/-- Python `str.strip` on a `String`. -/
def pyStripStr (s : String) : String :=
  String.mk (stripChars s.data)

/-- Embeds `_extract_json_from_markdown(response_text)`.  The function's
parameter is named `response_text`, but every statement of its body reads
the name `text`, which is bound nowhere (not a parameter, local or module
global), so the first statement executed —
`re.search(r"..." , text, re.DOTALL)` — raises `NameError` for the
unbound name `text` before any extraction logic can run.  The fenced
`\x60\x60\x60(?:json)?` search, the first-`\x7b`/last-`\x7d` brace scan
and the `json.loads` call written below that line are therefore dead
code on every input. -/
def extract_json_from_markdown (response_text : String) : Except PyError JValue :=
  Except.error (PyError.nameError "text")

/-- Embeds the field-extraction block of
`TranslateCommandAgent._parse_response` (the statements after the
`_extract_json_from_markdown` call): defensive coercion of the four
fields and the empty-command-and-follow-up check.  A payload that is not
a mapping has no `get` attribute, which in Python raises
`AttributeError`. -/
def payload_to_suggestion (payload : JValue) : Except PyError CommandSuggestion :=
  match payload with
  | JValue.obj kvs =>
    let command := pyStripStr (pyStr ((jGet kvs "command").getD (JValue.str "")))
    let explanation := pyStripStr (pyStr ((jGet kvs "explanation").getD (JValue.str "")))
    let follow_up := pyStripStr (pyStr ((jGet kvs "follow_up").getD (JValue.str "")))
    let requires_confirmation := pyBool ((jGet kvs "requires_confirmation").getD (JValue.bool false))
    if command == "" && follow_up == "" then
      Except.error (PyError.commandParsingError "Model returned empty command and follow_up")
    else
      Except.ok (CommandSuggestion.mk command explanation requires_confirmation follow_up)
  | _ => Except.error (PyError.attributeError "get")

/-- Embeds `TranslateCommandAgent._parse_response`: call the extractor,
re-raise a `ValueError` from it as `CommandParsingError` (the only
exception kind the `except ValueError` clause catches — a `NameError`
propagates unchanged), then extract the fields. -/
def parse_response (response_text : String) : Except PyError CommandSuggestion :=
  match extract_json_from_markdown response_text with
  | Except.error (PyError.valueError exc) =>
    Except.error (PyError.commandParsingError ("Failed to extract JSON: " ++ exc))
  | Except.error e => Except.error e
  | Except.ok payload => payload_to_suggestion payload

/-- Embeds `TranslateCommandAgent.suggest` from the completion call on:
prompt-template formatting and the model client are external
collaborators, modelled by the oracle `complete` mapping the user prompt
to the raw response text.  After parsing, confirmation is enforced only
when the parsed command is truthy (non-empty) and the request does not
allow destructive commands. -/
def suggest (complete : String → String) (request : CommandRequest) :
    Except PyError CommandSuggestion :=
  let user_prompt := "PROCESS DATA: " ++ pyStripStr request.instruction
  let raw_response := complete user_prompt
  match parse_response raw_response with
  | Except.error e => Except.error e
  | Except.ok suggestion =>
    Except.ok
      (if suggestion.command != "" && !request.allow_destructive then
        enforce_confirmation suggestion
      else
        suggestion)

/-- Embeds `OpenAIChatClient.complete` from the point where `urlopen`
succeeded and `raw_body = json.loads(response.read().decode("utf-8"))`
has bound the decoded JSON body (transport errors are caught earlier in
the source and are out of scope here).  The next statement is
`data = json.loads(raw_body.decode("utf-8"))`; `raw_body` is a decoded
JSON value — a `dict`, `list`, `str`, number, bool or `None` — and none
of these has a `decode` attribute, so evaluating `raw_body.decode`
raises `AttributeError` before any field of the body is read. -/
def openai_complete (raw_body : JValue) : Except PyError String :=
  Except.error (PyError.attributeError "decode")

/-- Embeds the content extraction written after that statement in the
source (`data["choices"][0]["message"]["content"]` under
`except (KeyError, IndexError)`, the `isinstance(raw_message, str)`
check and the final `.strip()`), applied directly to the decoded body;
in the source this block is unreachable.  Subscripting a non-container
shape raises `TypeError`, which the source does not catch. -/
def openai_extract_content (data : JValue) : Except PyError String :=
  match data with
  | JValue.obj kvs =>
    match jGet kvs "choices" with
    | none => Except.error (PyError.runtimeError "Unexpected response from OpenAI API")
    | some (JValue.arr []) =>
      Except.error (PyError.runtimeError "Unexpected response from OpenAI API")
    | some (JValue.arr (choice0 :: _)) =>
      match choice0 with
      | JValue.obj ckvs =>
        match jGet ckvs "message" with
        | none => Except.error (PyError.runtimeError "Unexpected response from OpenAI API")
        | some (JValue.obj mkvs) =>
          match jGet mkvs "content" with
          | none => Except.error (PyError.runtimeError "Unexpected response from OpenAI API")
          | some (JValue.str s) => Except.ok (pyStripStr s)
          | some _ => Except.error (PyError.runtimeError "OpenAI API returned non-text content")
        | some _ => Except.error (PyError.typeError "message is not subscriptable")
      | _ => Except.error (PyError.typeError "choice is not subscriptable")
    | some _ => Except.error (PyError.typeError "choices is not subscriptable")
  | _ => Except.error (PyError.typeError "data is not subscriptable")

/-- Tests whether a result is a raised `CommandParsingError`. -/
def isParsingError {α : Type} : Except PyError α → Bool
  | Except.error (PyError.commandParsingError _) => true
  | _ => false

/-- Tests whether a result is a raised `AttributeError`. -/
def isAttributeError {α : Type} : Except PyError α → Bool
  | Except.error (PyError.attributeError _) => true
  | _ => false

/-- The valid unfenced model response of the repository's
`test_returns_suggestion_with_command`. -/
def lsLaResponse : String :=
  "\x7b\"command\": \"ls -la\", \"explanation\": \"List files\", \"requires_confirmation\": false, \"follow_up\": \"\"\x7d"

/-- The decoded JSON object that `json.loads` would produce from
`lsLaResponse`. -/
def lsLaPayload : JValue :=
  JValue.obj
    [("command", JValue.str "ls -la"),
     ("explanation", JValue.str "List files"),
     ("requires_confirmation", JValue.bool false),
     ("follow_up", JValue.str "")]

/-- A response whose object has a whitespace-only `command` and an empty
`follow_up`. -/
def emptyFieldsResponse : String :=
  "\x7b\"command\": \"  \", \"follow_up\": \"\"\x7d"

/-- The fenced model response of the repository's
`test_extracts_json_from_markdown_blocks`. -/
def fencedWhoamiResponse : String :=
  "Here is the command:\n```json\n\x7b\"command\": \"whoami\", \"explanation\": \"test\", \"requires_confirmation\": false, \"follow_up\": \"\"\x7d\n```"

/-- The same object as `fencedWhoamiResponse`, unfenced. -/
def unfencedWhoamiResponse : String :=
  "\x7b\"command\": \"whoami\", \"explanation\": \"test\", \"requires_confirmation\": false, \"follow_up\": \"\"\x7d"

/-- A valid model response carrying a destructive command. -/
def destructiveOkResponse : String :=
  "\x7b\"command\": \"rm -rf /tmp/cache\", \"explanation\": \"Remove cache\", \"requires_confirmation\": false, \"follow_up\": \"\"\x7d"

/-- The decoded body of a successful chat-completions response, as in
the repository's `test_complete_returns_message`. -/
def openaiBody : JValue :=
  JValue.obj
    [("choices",
      JValue.arr [JValue.obj [("message", JValue.obj [("content", JValue.str "hello")])]])]

/-- Claim C1: a response with no brace should fail with a
`ParsingError`.  The code instead raises `NameError` on the unbound name
`text` in `_extract_json_from_markdown` — the `except ValueError` clause
of `_parse_response` does not catch it — so on the input
`"No JSON here"` parsing fails with an error that is not a
`CommandParsingError`. -/
theorem c1_no_braces_raises_name_error :
    parse_response "No JSON here" = Except.error (PyError.nameError "text")
    ∧ isParsingError (parse_response "No JSON here") = false :=
  ⟨rfl, rfl⟩

/-- Claim C2 counterexample: the claim says a flag cluster containing
`r` combined with `f` in any order is flagged, naming `rm -fr x`; but
the pattern `rm\s+-r[f|v|i]*\b` requires the cluster to start with `-r`,
so `rm -fr x` (cluster starting with `-f`) matches no destructive
pattern and classification leaves `requires_confirmation` false. -/
theorem c2_counterexample :
    (enforce_confirmation
        (CommandSuggestion.mk "rm -fr x" "Remove the directory" false "")).requires_confirmation
      = false := by decide

/-- Claim C2, amended: for every suggestion whose normalized command
matches the first destructive pattern — `rm`, whitespace, then a flag
cluster that starts with `-r`, continued by any characters of the class
`f`/`v`/`i` (or the literal bar admitted by the class `[f|v|i]`) up to a
word boundary — classification forces `requires_confirmation` to
true. -/
theorem c2_rm_dash_r_cluster_forces_confirmation (s : CommandSuggestion)
    (h : searchSuffixes matchP1At (normalizeCmd s.command) = true) :
    (enforce_confirmation s).requires_confirmation = true := by
  have hm : matches_any_destructive (normalizeCmd s.command) = true := by
    simp [matches_any_destructive, h]
  simp [enforce_confirmation, hm, CommandSuggestion.with_confirmation]

/-- Claim C2 witness: the pattern hypothesis holds at the concrete
command `rm -rf ~/Downloads/cache` and the flag is forced there. -/
theorem c2_witness :
    searchSuffixes matchP1At (normalizeCmd "rm -rf ~/Downloads/cache") = true
    ∧ (enforce_confirmation
        (CommandSuggestion.mk "rm -rf ~/Downloads/cache" "Remove cache" false "")).requires_confirmation
      = true :=
  ⟨by decide, c2_rm_dash_r_cluster_forces_confirmation _ (by decide)⟩

/-- Claim C3: a valid JSON payload with a non-empty command should parse
into the corresponding trimmed suggestion.  The code never gets there:
`_extract_json_from_markdown` raises `NameError` (unbound name `text`)
on every input, so `parse` fails even on the repository's own
`test_returns_suggestion_with_command` input; the field-extraction block
of `_parse_response`, applied to the payload that `json.loads` would
have produced, does yield exactly the claimed suggestion. -/
theorem c3_valid_payload_parse_raises_name_error :
    parse_response lsLaResponse = Except.error (PyError.nameError "text")
    ∧ payload_to_suggestion lsLaPayload
        = Except.ok (CommandSuggestion.mk "ls -la" "List files" false "") :=
  ⟨rfl, rfl⟩

/-- Claim C4: a payload with `command` and `follow_up` both empty after
trimming should fail with a `ParsingError`.  The code fails on such
input with `NameError` (unbound name `text`) before reaching its
empty-fields check; that check, applied to the decoded payload the
extraction would have produced, does raise the claimed
`CommandParsingError`. -/
theorem c4_empty_fields_raise_name_error :
    parse_response emptyFieldsResponse = Except.error (PyError.nameError "text")
    ∧ isParsingError (parse_response emptyFieldsResponse) = false
    ∧ payload_to_suggestion
        (JValue.obj [("command", JValue.str "  "), ("follow_up", JValue.str "")])
      = Except.error (PyError.commandParsingError "Model returned empty command and follow_up") :=
  ⟨rfl, rfl, rfl⟩

/-- Claim C5: a ```json fenced object should parse identically to the
unfenced object.  Neither parses: both the fenced input of the
repository's `test_extracts_json_from_markdown_blocks` and its unfenced
object raise `NameError` (unbound name `text`), so no
`CommandSuggestion` is returned in either case. -/
theorem c5_fenced_and_unfenced_both_raise_name_error :
    parse_response fencedWhoamiResponse = Except.error (PyError.nameError "text")
    ∧ parse_response unfencedWhoamiResponse = Except.error (PyError.nameError "text") :=
  ⟨rfl, rfl⟩

/-- Claim C6 counterexample: the claim says the power-state pattern does
not fire when the word occurs only as a proper substring of a longer
token such as `myshutdown`; but the pattern
`shutdown\b|reboot\b|poweroff\b` anchors only the right edge of each
word, so `myshutdown` (with `shutdown` as a suffix) is flagged and
classification forces `requires_confirmation` to true. -/
theorem c6_counterexample :
    (enforce_confirmation
        (CommandSuggestion.mk "myshutdown" "Run a local script" false "")).requires_confirmation
      = true := by decide

/-- Claim C6, amended: the power-state pattern anchors only the right
word boundary: for every suggestion whose normalized command contains
`shutdown`, `reboot` or `poweroff` followed by a word boundary — whether
the occurrence starts a token or sits at the end of a longer token —
classification forces `requires_confirmation` to true. -/
theorem c6_power_word_right_boundary_forces_confirmation (s : CommandSuggestion)
    (h : searchSuffixes matchP4At (normalizeCmd s.command) = true) :
    (enforce_confirmation s).requires_confirmation = true := by
  have hm : matches_any_destructive (normalizeCmd s.command) = true := by
    simp [matches_any_destructive, h]
  simp [enforce_confirmation, hm, CommandSuggestion.with_confirmation]

/-- Claim C6 witness: the pattern hypothesis holds at the concrete
whole-word command `shutdown -h now` and the flag is forced there. -/
theorem c6_witness :
    searchSuffixes matchP4At (normalizeCmd "shutdown -h now") = true
    ∧ (enforce_confirmation
        (CommandSuggestion.mk "shutdown -h now" "Power off" false "")).requires_confirmation
      = true :=
  ⟨by decide, c6_power_word_right_boundary_forces_confirmation _ (by decide)⟩

/-- Claim C7: classification is a pure frame-preserving upgrade — for
every suggestion it returns either the input itself or its
`with_confirmation true` copy, never changes `command`, `explanation` or
`follow_up`, and the resulting flag is the disjunction of the input flag
with the pattern-match outcome, so a true flag is never downgraded. -/
theorem c7_classification_frame (s : CommandSuggestion) :
    (enforce_confirmation s = s ∨ enforce_confirmation s = s.with_confirmation true)
    ∧ (enforce_confirmation s).command = s.command
    ∧ (enforce_confirmation s).explanation = s.explanation
    ∧ (enforce_confirmation s).follow_up = s.follow_up
    ∧ (enforce_confirmation s).requires_confirmation
        = (s.requires_confirmation || matches_any_destructive (normalizeCmd s.command)) := by
  cases h : matches_any_destructive (normalizeCmd s.command) with
  | false => simp [enforce_confirmation, h]
  | true => simp [enforce_confirmation, h, CommandSuggestion.with_confirmation]

/-- Claim C8: with `allow_destructive = true`, `suggest` should return
every parsed suggestion unchanged.  `suggest` never returns a suggestion
at all: parsing raises `NameError` (unbound name `text`) on every model
response, so even a valid destructive-command response under the
override produces that error rather than the unchanged suggestion. -/
theorem c8_allow_destructive_suggest_never_returns :
    suggest (fun _ => destructiveOkResponse)
        (CommandRequest.mk "clear cache" none "/bin/bash" 0.0 true)
      = Except.error (PyError.nameError "text") :=
  rfl

/-- Claim C9: a successful response whose decoded body carries
`choices[0].message.content` as a string should yield that text,
stripped.  The code instead evaluates `raw_body.decode("utf-8")` on the
already-decoded JSON body, raising `AttributeError` on every successful
response — including the body of the repository's own
`test_complete_returns_message` — while the content extraction written
after that statement would have produced the claimed text. -/
theorem c9_complete_raises_attribute_error :
    openai_complete openaiBody = Except.error (PyError.attributeError "decode")
    ∧ openai_extract_content openaiBody = Except.ok "hello" :=
  ⟨rfl, rfl⟩

/-- Claim C10 counterexample: the claim asserts that some response text
makes `parse` raise an attribute error (treating a decoded non-object as
a mapping); in fact no input does — extraction raises `NameError` before
any candidate is decoded. -/
theorem c10_counterexample :
    (∃ s : String, isAttributeError (parse_response s) = true) = False := by
  simp [parse_response, extract_json_from_markdown, isAttributeError]

/-- Claim C10, amended: the typed-error contract is indeed not total,
but not through the non-object-JSON path: for every response text,
`parse` raises the `NameError` for the unbound name `text` — an error
that is neither a `CommandParsingError` nor an `AttributeError`. -/
theorem c10_parse_always_raises_name_error (s : String) :
    parse_response s = Except.error (PyError.nameError "text")
    ∧ isParsingError (parse_response s) = false
    ∧ isAttributeError (parse_response s) = false :=
  ⟨rfl, rfl, rfl⟩

end TerminalAI
